import Mathlib

/-!
Verification development for the OpenSRS REST facade repository.

The definitions below are a shallow embedding of the JavaScript source:

* `src/routes/dns-routes.js`    : the add-record and update-record handlers
  (the safe retrieve-merge-replace workflow over `get_dns_zone` and
  `set_dns_zone`);
* `src/routes/health-routes.js` : the delete-record handler of the second
  route variant;
* `src/lib/opensrs-client.js`   : `makeRequest`, `parseXmlResponse` and
  `extractXmlValue`;
* `src/routes/domain-routes.js` : the availability cascade of the
  `/lookup` endpoint;
* `src/lib/cache-manager.js`    : the five-minute TTL cache;
* `src/lib/xml-templates/set-dns-zone.js` : the grouped-by-type record
  subtree of the `set_dns_zone` request XML.

JavaScript truthiness on optional strings and numbers (`x || d`, `if (x)`)
is modelled explicitly: an absent value and the empty string are falsy, a
present number is falsy exactly when it is zero.
-/

/-- Truthiness of an optional JavaScript string: absent and empty are falsy. -/
def jsTruthyS : Option String → Bool
  | none => false
  | some s => s ≠ ""

/-- Truthiness of an optional JavaScript number (naturals only appear here):
absent and zero are falsy. -/
def jsTruthyN : Option Nat → Bool
  | none => false
  | some n => n ≠ 0

/-- JavaScript `a || b` on optional strings. -/
def jsOrS (a b : Option String) : Option String :=
  if jsTruthyS a then a else b

/-- JavaScript `x || d` on an optional number with a number default. -/
def jsOrN (a : Option Nat) (d : Nat) : Nat :=
  match a with
  | none => d
  | some n => if n = 0 then d else n

/-- ASCII uppercase mapping, modelling `String.prototype.toUpperCase` on the
ASCII record types this code handles. -/
def jsToUpper (s : String) : String :=
  String.mk (s.data.map Char.toUpper)

/-- ASCII lowercase mapping, modelling `String.prototype.toLowerCase`. -/
def jsToLower (s : String) : String :=
  String.mk (s.data.map Char.toLower)

/-- Internal DNS record shape used by the route handlers and the
`set-dns-zone` template: `{type, subdomain, address, ttl, priority?,
weight?, port?}` (src/routes/dns-routes.js lines 690 to 700). -/
structure DnsRecord where
  type : String
  subdomain : String
  address : String
  ttl : Nat
  priority : Option Nat
  weight : Option Nat
  port : Option Nat
deriving DecidableEq, Repr

/-- Request-body record (`req.body.record`): every field may be absent. -/
structure RecordInput where
  type : Option String
  host : Option String
  subdomain : Option String
  value : Option String
  address : Option String
  ttl : Option Nat
  priority : Option Nat
  weight : Option Nat
  port : Option Nat
deriving DecidableEq, Repr

/-- Request body of the add-record and update-record endpoints. -/
structure DnsBody where
  domain : Option String
  record : Option RecordInput
deriving DecidableEq, Repr

/-- Response of `getDnsZone` as the handlers inspect it: the `success` flag,
whether `existingZone.data` is truthy, and the three candidate locations of
the record list (`data.records`, `data.attributes.records`,
`attributes.records`), each present or absent
(src/routes/dns-routes.js lines 655 to 669). -/
structure ZoneResponse where
  success : Bool
  dataPresent : Bool
  dataRecords : Option (List DnsRecord)
  dataAttrRecords : Option (List DnsRecord)
  attrRecords : Option (List DnsRecord)
deriving DecidableEq, Repr

/-- Observable outcome of one handler run: either an error JSON response is
sent with the given HTTP status and no `setDnsZone` call is issued, or
`setDnsZone` is called exactly once with the given record list. -/
inductive HandlerStep where
  | respondError (httpStatus : Nat) (msg : String)
  | callSetZone (records : List DnsRecord)
deriving DecidableEq, Repr

/-- Number of `setDnsZone` invocations an outcome carries. -/
def HandlerStep.setZoneCalls : HandlerStep → Nat
  | .respondError _ _ => 0
  | .callSetZone _ => 1

/-- True when the outcome is an error JSON response (HTTP status at least
400) and no zone update was issued. -/
def HandlerStep.isErrorResponse : HandlerStep → Bool
  | .respondError s _ => 400 ≤ s
  | .callSetZone _ => false

/-- Record-list selection of the handlers: `data.records`, else
`data.attributes.records`, else `attributes.records`, else the empty list
(src/routes/dns-routes.js lines 656 to 669; a present empty array is truthy
in JavaScript and is therefore selected). -/
def existingRecordsOf (zone : ZoneResponse) : List DnsRecord :=
  match zone.dataRecords with
  | some rs => rs
  | none =>
    match zone.dataAttrRecords with
    | some rs => rs
    | none =>
      match zone.attrRecords with
      | some rs => rs
      | none => []

/-- Conversion of the request record to the internal format
(src/routes/dns-routes.js lines 690 to 700): uppercase the type, take
`host || subdomain || ''` as subdomain, `value || address` as address,
`ttl || 3600`, and copy priority, weight and port only when truthy. -/
def normalizeRecord (r : RecordInput) : DnsRecord :=
  { type := jsToUpper (r.type.getD "")
    subdomain := (jsOrS (jsOrS r.host r.subdomain) (some "")).getD ""
    address := (jsOrS r.value r.address).getD ""
    ttl := jsOrN r.ttl 3600
    priority := if jsTruthyN r.priority then r.priority else none
    weight := if jsTruthyN r.weight then r.weight else none
    port := if jsTruthyN r.port then r.port else none }

/-- Handler of POST /api/dns/add-record (src/routes/dns-routes.js lines 626
to 731), as a function of the request body and the `getDnsZone` response.
The body is validated, then: if the zone read failed the handler answers
500 and never calls `setDnsZone`; otherwise it appends the normalized new
record to the retrieved list and calls `setDnsZone` once with the result. -/
def addRecordHandler (body : DnsBody) (zone : ZoneResponse) : HandlerStep :=
  match body.record with
  | none => .respondError 400 "Missing required fields: domain, record.type"
  | some r =>
    if ¬ jsTruthyS body.domain ∨ ¬ jsTruthyS r.type then
      .respondError 400 "Missing required fields: domain, record.type"
    else if ¬ jsTruthyS r.value ∧ ¬ jsTruthyS r.address then
      .respondError 400 "Record must have either value or address field"
    else
      if zone.success ∧ zone.dataPresent then
        .callSetZone (existingRecordsOf zone ++ [normalizeRecord r])
      else if ¬ zone.success then
        .respondError 500 "Failed to retrieve existing DNS records. Cannot safely add new record without risking data loss."
      else
        .callSetZone ([] ++ [normalizeRecord r])

/-- Key used by the update-record handler to match records:
`type + ':' + subdomain` (src/routes/dns-routes.js line 845). -/
def recordKeyOf (t sub : String) : String :=
  t ++ ":" ++ sub

/-- Handler of POST /api/dns/update-record (src/routes/dns-routes.js lines
762 to 891). After validation and the zone read: every existing record
whose `type:subdomain` key equals the key of the normalized request record
is replaced by it; if none matched, the record is appended instead; then
`setDnsZone` is called once. A failed zone read answers 500; a successful
read with falsy `data` answers 400. -/
def updateRecordHandler (body : DnsBody) (zone : ZoneResponse) : HandlerStep :=
  match body.record with
  | none => .respondError 400 "Missing required fields: domain, record.type"
  | some r =>
    if ¬ jsTruthyS body.domain ∨ ¬ jsTruthyS r.type then
      .respondError 400 "Missing required fields: domain, record.type"
    else if ¬ jsTruthyS r.value ∧ ¬ jsTruthyS r.address then
      .respondError 400 "Record must have either value or address field"
    else
      if zone.success ∧ zone.dataPresent then
        let updated := normalizeRecord r
        let key := recordKeyOf updated.type updated.subdomain
        let existing := existingRecordsOf zone
        let replaced := existing.map
          (fun e => if recordKeyOf e.type e.subdomain = key then updated else e)
        if existing.any (fun e => recordKeyOf e.type e.subdomain = key) then
          .callSetZone replaced
        else
          .callSetZone (replaced ++ [updated])
      else if ¬ zone.success then
        .respondError 500 "Failed to retrieve existing DNS records. Cannot safely update record without risking data loss."
      else
        .respondError 400 "No existing DNS zone found. Use add-record instead."

/-- Handler of POST /delete-record of the second route variant
(src/routes/health-routes.js lines 383 to 475): after the zone read, every
existing record matching the request record by type and subdomain, and by
address only when an address was supplied, is filtered out; if none matched
the handler answers 404, otherwise `setDnsZone` is called once with the
remaining records. The record list is read from `data.records` only, and a
falsy `data` makes the property access throw into the catch block (500). -/
def deleteRecordHandler (body : DnsBody) (zone : ZoneResponse) : HandlerStep :=
  match body.record with
  | none => .respondError 400 "Domain and record are required"
  | some r =>
    if ¬ jsTruthyS body.domain then
      .respondError 400 "Domain and record are required"
    else if ¬ zone.success then
      .respondError 500 "Failed to retrieve existing DNS records"
    else if ¬ zone.dataPresent then
      .respondError 500 "Cannot read records of undefined data"
    else
      let existing := (zone.dataRecords).getD []
      let keeps := fun (e : DnsRecord) =>
        ! (r.type == some e.type &&
           e.subdomain == r.subdomain.getD "" &&
           (! jsTruthyS r.address || r.address == some e.address))
      let remaining := existing.filter (fun e => keeps e)
      if existing.all (fun e => keeps e) then
        .respondError 404 "Record to delete not found"
      else
        .callSetZone remaining

/-- Entry of the in-memory cache: `{data, timestamp}`
(src/lib/cache-manager.js lines 12 to 18). -/
structure CacheEntry (α : Type) where
  data : α
  timestamp : Nat
deriving DecidableEq, Repr

/-- State of `CacheManager`: two domain-keyed maps (modelled as association
lists with map semantics) and the fixed timeout
(src/lib/cache-manager.js lines 2 to 7). -/
structure CacheManager (α : Type) where
  lookupCache : List (String × CacheEntry α)
  priceCache : List (String × CacheEntry α)
deriving DecidableEq, Repr

/-- Fixed cache timeout: `5 * 60 * 1000` milliseconds
(src/lib/cache-manager.js line 6). -/
def cacheTimeout : Nat := 5 * 60 * 1000

/-- Map-set semantics of `Map.prototype.set`: replace the binding of the key
or add it. -/
def mapSet {α : Type} (m : List (String × CacheEntry α)) (k : String)
    (v : CacheEntry α) : List (String × CacheEntry α) :=
  match m with
  | [] => [(k, v)]
  | (k0, v0) :: rest =>
    if k0 = k then (k, v) :: rest else (k0, v0) :: mapSet rest k v

/-- Map-get semantics of `Map.prototype.get`. -/
def mapGet {α : Type} (m : List (String × CacheEntry α)) (k : String) :
    Option (CacheEntry α) :=
  match m with
  | [] => none
  | (k0, v0) :: rest => if k0 = k then some v0 else mapGet rest k

/-- Method `cacheLookup(domain, result)` at time `now`
(src/lib/cache-manager.js lines 12 to 18). -/
def cacheLookup {α : Type} (c : CacheManager α) (domain : String) (result : α)
    (now : Nat) : CacheManager α :=
  { c with lookupCache := mapSet c.lookupCache domain ⟨result, now⟩ }

/-- Method `getCachedLookup(domain)` read at time `now`: return the cached
data when `now - timestamp < cacheTimeout`, else null
(src/lib/cache-manager.js lines 23 to 30). -/
def getCachedLookup {α : Type} (c : CacheManager α) (domain : String)
    (now : Nat) : Option α :=
  match mapGet c.lookupCache domain with
  | none => none
  | some e => if now - e.timestamp < cacheTimeout then some e.data else none

/-- Method `cachePrice(domain, result)` at time `now`
(src/lib/cache-manager.js lines 35 to 41). -/
def cachePrice {α : Type} (c : CacheManager α) (domain : String) (result : α)
    (now : Nat) : CacheManager α :=
  { c with priceCache := mapSet c.priceCache domain ⟨result, now⟩ }

/-- Method `getCachedPrice(domain)` read at time `now`
(src/lib/cache-manager.js lines 46 to 53). -/
def getCachedPrice {α : Type} (c : CacheManager α) (domain : String)
    (now : Nat) : Option α :=
  match mapGet c.priceCache domain with
  | none => none
  | some e => if now - e.timestamp < cacheTimeout then some e.data else none

/-- Whitespace class used by the `\s` parts of the extraction regex. -/
def isWsChar (c : Char) : Bool :=
  c = ' ' || c = '\t' || c = '\n' || c = '\r'

/-- Strip leading and trailing whitespace from a character list. -/
def trimChars (l : List Char) : List Char :=
  ((l.dropWhile isWsChar).reverse.dropWhile isWsChar).reverse

/-- Case-insensitive prefix match (flag `i` of the extraction regex):
when `pat` is a prefix of `l` up to case, return the rest of `l`. -/
def ciDropPrefix : List Char → List Char → Option (List Char)
  | [], l => some l
  | _ :: _, [] => none
  | p :: ps, c :: cs => if p.toLower = c.toLower then ciDropPrefix ps cs else none

/-- Match of the tail of the pattern `<item\s+key="KEY">` starting after
`<item`: one or more whitespace characters, then `key="KEY">`
case-insensitively; returns the remaining input. -/
def matchOpenTagTail (key : List Char) (l : List Char) : Option (List Char) :=
  let afterWs := l.dropWhile isWsChar
  if afterWs.length = l.length then none
  else
    match ciDropPrefix ("key=\"".data) afterWs with
    | none => none
    | some rest =>
      match ciDropPrefix key rest with
      | none => none
      | some rest2 => ciDropPrefix ("\">".data) rest2

/-- Match of `\s*([^<]+?)\s*</item>` at the current position: the text up to
the first `<` must be nonempty, `</item>` must follow, and the capture is
the whitespace-trimmed text, or its last character when it is all
whitespace (regex backtracking leaves one whitespace character in the
lazy capture group in that case). -/
def scanItemValue (l : List Char) : Option String :=
  let chunk := l.takeWhile (fun c => c ≠ '<')
  let rest := l.drop chunk.length
  if chunk.isEmpty then none
  else
    match ciDropPrefix ("</item>".data) rest with
    | none => none
    | some _ =>
      let t := trimChars chunk
      if t.isEmpty then some (String.mk [chunk.getLast!]) else some (String.mk t)

/-- Scan of the whole input for the first position where the pattern
`<item\s+key="KEY">\s*([^<]+?)\s*</item>` matches, mirroring
`extractXmlValue` (src/lib/opensrs-client.js lines 213 to 217). -/
def extractXmlValueAux (key : List Char) : List Char → Option String
  | [] => none
  | c :: cs =>
    let tryHere :=
      match ciDropPrefix ("<item".data) (c :: cs) with
      | none => none
      | some afterItem =>
        match matchOpenTagTail key afterItem with
        | none => none
        | some rest => scanItemValue rest
    match tryHere with
    | some v => some v
    | none => extractXmlValueAux key cs

/-- Method `extractXmlValue(xml, key)` of the client
(src/lib/opensrs-client.js lines 213 to 217). -/
def extractXmlValue (xml key : String) : Option String :=
  extractXmlValueAux key.data xml.data

/-- Parsed JSON response produced by the client, restricted to the fields
the claims inspect (src/lib/opensrs-client.js lines 232 to 238, 143 to 152
and 285 to 292). -/
structure ApiResponse where
  success : Bool
  responseCode : Option String
  responseText : Option String
  error : Option String
  requestId : Option String
  statusCode : Option Nat
deriving DecidableEq, Repr

/-- Method `parseXmlResponse(xmlString)` (src/lib/opensrs-client.js lines
224 to 294). The argument is optional: `none` stands for a non-string
`response.data` whose first use throws, exercising the catch block that
returns the parse-error object with `success:false` and
`responseCode:'PARSE_ERROR'` instead of rethrowing. On a string input the
response code and text are extracted and `success` is the code being
exactly 200 or 210. -/
def parseXmlResponse (input : Option String) : ApiResponse :=
  match input with
  | none =>
    { success := false
      responseCode := some "PARSE_ERROR"
      responseText := some "xmlString.indexOf is not a function"
      error := some "Failed to parse XML response"
      requestId := none
      statusCode := none }
  | some xml =>
    let rc := extractXmlValue xml "response_code"
    { success := rc = some "200" ∨ rc = some "210"
      responseCode := rc
      responseText := extractXmlValue xml "response_text"
      error := none
      requestId := extractXmlValue xml "request_id"
      statusCode := none }

/-- Outcome of the awaited `axios.post` call inside `makeRequest`: either it
resolves with a response body, or it rejects with an error carrying a
message and, when an HTTP response exists, its status and status text. -/
inductive TransportOutcome where
  | resolved (respData : Option String)
  | rejected (message : String) (status : Option Nat) (statusText : Option String)
deriving DecidableEq, Repr

/-- Method `makeRequest` as a function of the transport outcome
(src/lib/opensrs-client.js lines 103 to 154): a resolved call is parsed by
`parseXmlResponse`; a rejected call is caught and turned into the
structured failure object with `success:false`, the error message,
`responseCode` equal to the decimal HTTP status or the string
NETWORK_ERROR when there is none, and `responseText` equal to the status
text or a fixed fallback. The function never throws. -/
def makeRequestModel (outcome : TransportOutcome) : ApiResponse :=
  match outcome with
  | .resolved respData => parseXmlResponse respData
  | .rejected msg status statusText =>
    { success := false
      responseCode := some (match status with
        | some n => toString n
        | none => "NETWORK_ERROR")
      responseText := some ((jsOrS statusText (some "Network or connection error")).getD "")
      error := some msg
      requestId := none
      statusCode := status }

/-- Substring containment over character lists, modelling
`String.prototype.includes`. -/
def charsContain (pat : List Char) : List Char → Bool
  | [] => pat.isEmpty
  | c :: cs => pat.isPrefixOf (c :: cs) || charsContain pat cs

/-- Availability cascade of POST /api/domains/lookup
(src/routes/domain-routes.js lines 53 to 94), as a function of the parsed
client result and of the `result.data?.status` field. In the final
fallback the lowercased response text is searched for the substring
available first, so a text containing taken (which leaves the initial
false) only matters when available does not occur in it. -/
def lookupIsAvailable (result : ApiResponse) (dataStatus : Option String) : Bool :=
  if result.success then
    if result.responseCode = some "200" ∨ result.responseCode = some "210" then
      true
    else if result.responseCode = some "211" then
      false
    else if dataStatus = some "available" then
      true
    else if dataStatus = some "taken" then
      false
    else
      let txt := ((result.responseText.map jsToLower).getD "")
      charsContain ("available".data) txt.data
  else
    false

/-- JSON body sent by the lookup endpoint on the non-throwing path
(src/routes/domain-routes.js lines 104 to 113): the envelope `success`
field is the literal true and `available` is the cascade result. -/
structure LookupReply where
  success : Bool
  available : Bool
deriving DecidableEq, Repr

/-- Response construction of the lookup endpoint. -/
def lookupReply (result : ApiResponse) (dataStatus : Option String) : LookupReply :=
  { success := true
    available := lookupIsAvailable result dataStatus }

/-- Structural view of the OpenSRS dt_assoc and dt_array XML fragments
emitted by the zone templates: an item node with its key attribute, the
two container tags, and text content. The string template of
src/lib/xml-templates/set-dns-zone.js is modelled at this node level; all
interpolated values are kept as the strings the template renders. -/
inductive ZoneXml where
  | text (s : String)
  | item (key : String) (children : List ZoneXml)
  | assoc (children : List ZoneXml)
  | arr (children : List ZoneXml)

/-- Group keys of the template in first-occurrence order of the uppercased
record types (`recordsByType` insertion order,
src/lib/xml-templates/set-dns-zone.js lines 13 to 21). -/
def typeOrder (records : List DnsRecord) : List String :=
  records.foldl
    (fun acc r =>
      let t := jsToUpper r.type
      if t ∈ acc then acc else acc ++ [t]) []

/-- Records of one group, in input order
(src/lib/xml-templates/set-dns-zone.js lines 15 to 21). -/
def recordsOfType (t : String) (records : List DnsRecord) : List DnsRecord :=
  records.filter (fun r => jsToUpper r.type = t)

/-- Per-record dt_assoc of the template: the subdomain item followed by the
type-specific items of the switch, with the JavaScript defaults
`priority || 10`, `weight || 1`, `port || 80` and all values rendered as
strings (src/lib/xml-templates/set-dns-zone.js lines 26 to 69). -/
def recordAssoc (t : String) (r : DnsRecord) : ZoneXml :=
  .assoc ([.item "subdomain" [.text r.subdomain]] ++
    (if t = "A" then
      [.item "ip_address" [.text r.address]]
    else if t = "AAAA" then
      [.item "ipv6_address" [.text r.address]]
    else if t = "CNAME" then
      [.item "hostname" [.text r.address]]
    else if t = "MX" then
      [.item "priority" [.text (toString (jsOrN r.priority 10))],
       .item "hostname" [.text r.address]]
    else if t = "TXT" then
      [.item "text" [.text r.address]]
    else if t = "SRV" then
      [.item "priority" [.text (toString (jsOrN r.priority 10))],
       .item "weight" [.text (toString (jsOrN r.weight 1))],
       .item "hostname" [.text r.address],
       .item "port" [.text (toString (jsOrN r.port 80))]]
    else
      [.item "address" [.text r.address]]))

/-- Content of the `<item key="records"><dt_assoc>` subtree built by the
template: one item per record type in first-occurrence order, each holding
a dt_array of zero-based indexed items wrapping the per-record dt_assoc
(src/lib/xml-templates/set-dns-zone.js lines 24 to 79). -/
def buildZoneRecordsXml (records : List DnsRecord) : List ZoneXml :=
  (typeOrder records).map (fun t =>
    .item t [.arr (((recordsOfType t records).enum).map
      (fun p => .item (toString p.1) [recordAssoc t p.2]))])

/-- Record shape recovered from the wire format: the injected type, the
subdomain and address, and the optional type-specific fields, all kept as
the raw text carried by the XML (the response parser of the repository
keeps every extracted value as a string). -/
structure WireRecord where
  type : String
  subdomain : String
  address : String
  priority : Option String
  weight : Option String
  port : Option String
deriving DecidableEq, Repr

/-- Text content of the first item with the given key in a child list. -/
def findItemText (key : String) : List ZoneXml → Option String
  | [] => none
  | .item k [.text s] :: rest =>
    if k = key then some s else findItemText key rest
  | _ :: rest => findItemText key rest

/-- Modelled from the spec: the repository ships no zone-response record
parser under src (the spec section 4.3 requires one in which records are
grouped by record-type key in the wire format and must be flattened to a
uniform record list with a type field injected per group, reading
ip_address for A, ipv6_address for AAAA, hostname for CNAME and MX and
SRV, text for TXT, and priority, weight and port where the type carries
them). This parses one indexed item of a type group. -/
def parseRecordNode (t : String) (n : ZoneXml) : Option WireRecord :=
  match n with
  | .item _ [.assoc fields] =>
    let sub := (findItemText "subdomain" fields).getD ""
    if t = "A" then
      some ⟨t, sub, (findItemText "ip_address" fields).getD "", none, none, none⟩
    else if t = "AAAA" then
      some ⟨t, sub, (findItemText "ipv6_address" fields).getD "", none, none, none⟩
    else if t = "CNAME" then
      some ⟨t, sub, (findItemText "hostname" fields).getD "", none, none, none⟩
    else if t = "MX" then
      some ⟨t, sub, (findItemText "hostname" fields).getD "",
            findItemText "priority" fields, none, none⟩
    else if t = "TXT" then
      some ⟨t, sub, (findItemText "text" fields).getD "", none, none, none⟩
    else if t = "SRV" then
      some ⟨t, sub, (findItemText "hostname" fields).getD "",
            findItemText "priority" fields,
            findItemText "weight" fields,
            findItemText "port" fields⟩
    else
      some ⟨t, sub, (findItemText "address" fields).getD "", none, none, none⟩
  | _ => none

/-- Modelled from the spec: flattening of the grouped wire format, walking
the type-keyed items and injecting the group key as the record type. -/
def parseZoneRecords (nodes : List ZoneXml) : List WireRecord :=
  nodes.flatMap (fun n =>
    match n with
    | .item t [.arr entries] => entries.filterMap (parseRecordNode t)
    | _ => [])

/-- Wire-level view of an input record inside the group with key `t`: the
fields the template emits for that type, values rendered as the template
renders them. -/
def wireView (t : String) (r : DnsRecord) : WireRecord :=
  { type := t
    subdomain := r.subdomain
    address := r.address
    priority := if t = "MX" ∨ t = "SRV" then some (toString (jsOrN r.priority 10)) else none
    weight := if t = "SRV" then some (toString (jsOrN r.weight 1)) else none
    port := if t = "SRV" then some (toString (jsOrN r.port 80)) else none }

/-- Grouped-and-reflattened view of the input records: for each type in
first-occurrence order, the wire views of the records of that type. -/
def zoneWireFlatten (records : List DnsRecord) : List WireRecord :=
  (typeOrder records).flatMap (fun t =>
    (recordsOfType t records).map (wireView t))

/-- Validity of a DNS record per the data-model invariant of the spec: MX
and SRV records carry a nonzero priority, SRV records additionally carry a
nonzero weight and port (nonzero because a zero is falsy in JavaScript and
would be replaced by the template default). -/
def validRecord (r : DnsRecord) : Bool :=
  (jsToUpper r.type ≠ "MX" || jsTruthyN r.priority) &&
  (jsToUpper r.type ≠ "SRV" ||
    (jsTruthyN r.priority && jsTruthyN r.weight && jsTruthyN r.port))

/-- Configuration object handed to `axios.post` by `makeRequest`: the three
headers and, were one configured, a timeout in milliseconds. -/
structure AxiosConfig where
  headers : List (String × String)
  timeout : Option Nat
deriving DecidableEq, Repr

/-- Request configuration built by `makeRequest`
(src/lib/opensrs-client.js lines 108 to 120): the call is
`axios.post(this.apiHost, xml, { headers })`, so the config object holds
the headers and nothing else; in particular no timeout key is set. The
signature string is a parameter here because its computation (MD5) lives in
the node crypto library, outside the repository. -/
def makeRequestAxiosConfig (username signature : String) : AxiosConfig :=
  { headers :=
      [("Content-Type", "text/xml"),
       ("X-Username", username),
       ("X-Signature", signature)]
    timeout := none }

theorem mapGet_mapSet_self {α : Type} (m : List (String × CacheEntry α))
    (k : String) (v : CacheEntry α) : mapGet (mapSet m k v) k = some v := by
  induction m with
  | nil => simp [mapSet, mapGet]
  | cons hd tl ih =>
    by_cases h : hd.1 = k
    · simp [mapSet, mapGet, h]
    · simpa [mapSet, mapGet, h] using ih

/-- C7: a lookup or price result stored at time `t` is returned by the
cached read for any read strictly before `t` plus five minutes, a read at
or after `t` plus five minutes returns null, and the TTL constant of both
maps is five minutes. -/
theorem c7_cache_ttl_five_minutes {α : Type} (c : CacheManager α)
    (domain : String) (result : α) (t now : Nat) :
    (now < t + cacheTimeout →
      getCachedLookup (cacheLookup c domain result t) domain now = some result) ∧
    (t + cacheTimeout ≤ now →
      getCachedLookup (cacheLookup c domain result t) domain now = none) ∧
    (now < t + cacheTimeout →
      getCachedPrice (cachePrice c domain result t) domain now = some result) ∧
    (t + cacheTimeout ≤ now →
      getCachedPrice (cachePrice c domain result t) domain now = none) ∧
    cacheTimeout = 5 * 60 * 1000 := by
  have hl : getCachedLookup (cacheLookup c domain result t) domain now =
      if now - t < cacheTimeout then some result else none := by
    simp [getCachedLookup, cacheLookup, mapGet_mapSet_self]
  have hp : getCachedPrice (cachePrice c domain result t) domain now =
      if now - t < cacheTimeout then some result else none := by
    simp [getCachedPrice, cachePrice, mapGet_mapSet_self]
  have hT : cacheTimeout = 300000 := rfl
  refine ⟨fun h => ?_, fun h => ?_, fun h => ?_, fun h => ?_, rfl⟩
  · rw [hl, if_pos (by omega)]
  · rw [hl, if_neg (by omega)]
  · rw [hp, if_pos (by omega)]
  · rw [hp, if_neg (by omega)]

/-- C7 witness: at a concrete store time 0 the cached value is served at
millisecond 299999 and expired at millisecond 300000, for both maps. -/
theorem c7_cache_ttl_five_minutes_witness :
    getCachedLookup (cacheLookup (⟨[], []⟩ : CacheManager Nat) "example.com" 7 0)
      "example.com" 299999 = some 7 ∧
    getCachedLookup (cacheLookup (⟨[], []⟩ : CacheManager Nat) "example.com" 7 0)
      "example.com" 300000 = none ∧
    getCachedPrice (cachePrice (⟨[], []⟩ : CacheManager Nat) "example.com" 7 0)
      "example.com" 299999 = some 7 ∧
    getCachedPrice (cachePrice (⟨[], []⟩ : CacheManager Nat) "example.com" 7 0)
      "example.com" 300000 = none :=
  ⟨(c7_cache_ttl_five_minutes ⟨[], []⟩ "example.com" 7 0 299999).1 (by decide),
   (c7_cache_ttl_five_minutes ⟨[], []⟩ "example.com" 7 0 300000).2.1 (by decide),
   (c7_cache_ttl_five_minutes ⟨[], []⟩ "example.com" 7 0 299999).2.2.1 (by decide),
   (c7_cache_ttl_five_minutes ⟨[], []⟩ "example.com" 7 0 300000).2.2.2.1 (by decide)⟩

/-- C9: the configuration object handed to `axios.post` by `makeRequest`
holds the three authentication headers and no timeout at all, contradicting
the specified caller-supplied default of about ten seconds. -/
theorem c9_makeRequest_config_has_no_timeout :
    (makeRequestAxiosConfig "testuser" "0123456789abcdef0123456789abcdef").timeout
      = none ∧
    (makeRequestAxiosConfig "testuser" "0123456789abcdef0123456789abcdef").headers
      = [("Content-Type", "text/xml"),
         ("X-Username", "testuser"),
         ("X-Signature", "0123456789abcdef0123456789abcdef")] :=
  ⟨rfl, rfl⟩

/-- C6: a rejected transport call is caught by `makeRequest` and mapped to
the structured failure object with `success:false`, the error message, a
response code that is the decimal HTTP status or NETWORK_ERROR when no
status exists, and a response text; and a throwing parse returns the
parse-error object with `success:false` and responseCode PARSE_ERROR
instead of propagating the exception. -/
theorem c6_makeRequest_structured_failure (msg : String) (status : Option Nat)
    (statusText : Option String) :
    (makeRequestModel (.rejected msg status statusText)).success = false ∧
    (makeRequestModel (.rejected msg status statusText)).error = some msg ∧
    (status = none →
      (makeRequestModel (.rejected msg status statusText)).responseCode =
        some "NETWORK_ERROR") ∧
    (∀ n, status = some n →
      (makeRequestModel (.rejected msg status statusText)).responseCode =
        some (toString n)) ∧
    (makeRequestModel (.rejected msg status statusText)).responseText =
      some ((jsOrS statusText (some "Network or connection error")).getD "") ∧
    (parseXmlResponse none).success = false ∧
    (parseXmlResponse none).responseCode = some "PARSE_ERROR" ∧
    (parseXmlResponse none).error = some "Failed to parse XML response" := by
  refine ⟨rfl, rfl, fun h => ?_, fun n h => ?_, rfl, rfl, rfl, rfl⟩
  · subst h; rfl
  · subst h; rfl

/-- C6 witness: a concrete connection error with no HTTP response yields
the NETWORK_ERROR failure object, and the parse-error object is produced
for the throwing parse input. -/
theorem c6_makeRequest_structured_failure_witness :
    (makeRequestModel (.rejected "socket hang up" none none)).success = false ∧
    (makeRequestModel (.rejected "socket hang up" none none)).responseCode =
      some "NETWORK_ERROR" ∧
    (makeRequestModel (.rejected "socket hang up" none none)).responseText =
      some "Network or connection error" ∧
    (parseXmlResponse none).responseCode = some "PARSE_ERROR" :=
  ⟨(c6_makeRequest_structured_failure "socket hang up" none none).1,
   (c6_makeRequest_structured_failure "socket hang up" none none).2.2.1 rfl,
   (c6_makeRequest_structured_failure "socket hang up" none none).2.2.2.2.1,
   (c6_makeRequest_structured_failure "socket hang up" none none).2.2.2.2.2.2.1⟩

/-- C1: whenever the initial `getDnsZone` read fails (`success=false`), both
the add-record and the update-record handler answer with an error response
and issue zero `setDnsZone` calls, whatever the request body was. -/
theorem c1_read_failure_aborts (body : DnsBody) (zone : ZoneResponse)
    (h : zone.success = false) :
    ((addRecordHandler body zone).isErrorResponse = true ∧
     (addRecordHandler body zone).setZoneCalls = 0) ∧
    ((updateRecordHandler body zone).isErrorResponse = true ∧
     (updateRecordHandler body zone).setZoneCalls = 0) := by
  cases hr : body.record with
  | none =>
    simp [addRecordHandler, updateRecordHandler, hr,
          HandlerStep.isErrorResponse, HandlerStep.setZoneCalls]
  | some r =>
    simp only [addRecordHandler, updateRecordHandler, hr, h]
    split_ifs <;>
      simp_all [HandlerStep.isErrorResponse, HandlerStep.setZoneCalls]

/-- C1 witness: a concrete failed zone read makes both handlers abort. -/
theorem c1_read_failure_aborts_witness :
    ((addRecordHandler
        ⟨some "example.com",
         some ⟨some "A", some "www", none, some "1.2.3.4", none, none, none, none, none⟩⟩
        ⟨false, false, none, none, none⟩).isErrorResponse = true ∧
     (addRecordHandler
        ⟨some "example.com",
         some ⟨some "A", some "www", none, some "1.2.3.4", none, none, none, none, none⟩⟩
        ⟨false, false, none, none, none⟩).setZoneCalls = 0) ∧
    ((updateRecordHandler
        ⟨some "example.com",
         some ⟨some "A", some "www", none, some "1.2.3.4", none, none, none, none, none⟩⟩
        ⟨false, false, none, none, none⟩).isErrorResponse = true ∧
     (updateRecordHandler
        ⟨some "example.com",
         some ⟨some "A", some "www", none, some "1.2.3.4", none, none, none, none, none⟩⟩
        ⟨false, false, none, none, none⟩).setZoneCalls = 0) :=
  c1_read_failure_aborts
    ⟨some "example.com",
     some ⟨some "A", some "www", none, some "1.2.3.4", none, none, none, none, none⟩⟩
    ⟨false, false, none, none, none⟩ rfl

/-- C2: on a valid add-record request whose zone read succeeded, the handler
calls `setDnsZone` exactly once, with the retrieved record list followed by
the normalized new record, so with one record more and no existing record
dropped or altered. -/
theorem c2_add_record_appends_once (body : DnsBody) (r : RecordInput)
    (zone : ZoneResponse)
    (hrec : body.record = some r)
    (hdom : jsTruthyS body.domain = true)
    (htype : jsTruthyS r.type = true)
    (hval : jsTruthyS r.value = true ∨ jsTruthyS r.address = true)
    (hsucc : zone.success = true)
    (hdata : zone.dataPresent = true) :
    addRecordHandler body zone =
      .callSetZone (existingRecordsOf zone ++ [normalizeRecord r]) ∧
    (addRecordHandler body zone).setZoneCalls = 1 ∧
    (existingRecordsOf zone ++ [normalizeRecord r]).length =
      (existingRecordsOf zone).length + 1 := by
  rcases hval with h | h <;>
    refine ⟨?_, ?_, by simp⟩ <;>
    simp [addRecordHandler, hrec, hdom, htype, h, hsucc, hdata,
          HandlerStep.setZoneCalls]

/-- C2 witness: adding a concrete A record to a zone holding one MX record
sends both records, with the new one appended. -/
theorem c2_add_record_appends_once_witness :
    addRecordHandler
      ⟨some "example.com",
       some ⟨some "A", some "www", none, some "203.0.113.1", none, none, none, none, none⟩⟩
      ⟨true, true, some [⟨"MX", "", "mail.example.com", 3600, some 10, none, none⟩],
       none, none⟩ =
      .callSetZone
        (existingRecordsOf
          ⟨true, true, some [⟨"MX", "", "mail.example.com", 3600, some 10, none, none⟩],
           none, none⟩ ++
         [normalizeRecord
           ⟨some "A", some "www", none, some "203.0.113.1", none, none, none, none, none⟩]) ∧
    (addRecordHandler
      ⟨some "example.com",
       some ⟨some "A", some "www", none, some "203.0.113.1", none, none, none, none, none⟩⟩
      ⟨true, true, some [⟨"MX", "", "mail.example.com", 3600, some 10, none, none⟩],
       none, none⟩).setZoneCalls = 1 ∧
    (existingRecordsOf
        ⟨true, true, some [⟨"MX", "", "mail.example.com", 3600, some 10, none, none⟩],
         none, none⟩ ++
       [normalizeRecord
         ⟨some "A", some "www", none, some "203.0.113.1", none, none, none, none, none⟩]).length =
      (existingRecordsOf
        ⟨true, true, some [⟨"MX", "", "mail.example.com", 3600, some 10, none, none⟩],
         none, none⟩).length + 1 :=
  c2_add_record_appends_once
    ⟨some "example.com",
     some ⟨some "A", some "www", none, some "203.0.113.1", none, none, none, none, none⟩⟩
    ⟨some "A", some "www", none, some "203.0.113.1", none, none, none, none, none⟩
    ⟨true, true, some [⟨"MX", "", "mail.example.com", 3600, some 10, none, none⟩],
     none, none⟩
    rfl rfl rfl (Or.inl rfl) rfl rfl

/-- C10: on a valid add-record request where the zone read reports success
but none of the three record locations is present, the handler proceeds
with an empty existing list and calls `setDnsZone` with only the new
record, replacing whatever the zone held. -/
theorem c10_missing_records_replace_zone (body : DnsBody) (r : RecordInput)
    (zone : ZoneResponse)
    (hrec : body.record = some r)
    (hdom : jsTruthyS body.domain = true)
    (htype : jsTruthyS r.type = true)
    (hval : jsTruthyS r.value = true ∨ jsTruthyS r.address = true)
    (hsucc : zone.success = true)
    (h1 : zone.dataRecords = none)
    (h2 : zone.dataAttrRecords = none)
    (h3 : zone.attrRecords = none) :
    addRecordHandler body zone = .callSetZone [normalizeRecord r] ∧
    (addRecordHandler body zone).setZoneCalls = 1 := by
  have he : existingRecordsOf zone = [] := by
    simp [existingRecordsOf, h1, h2, h3]
  rcases hval with h | h <;> cases hd : zone.dataPresent <;>
    simp [addRecordHandler, hrec, hdom, htype, h, hsucc, hd, he,
          HandlerStep.setZoneCalls]

/-- C10 witness: a successful zone response carrying no record list makes
the handler set the zone to the single new record. -/
theorem c10_missing_records_replace_zone_witness :
    addRecordHandler
      ⟨some "example.com",
       some ⟨some "A", some "www", none, some "203.0.113.1", none, none, none, none, none⟩⟩
      ⟨true, true, none, none, none⟩ =
      .callSetZone
        [normalizeRecord
          ⟨some "A", some "www", none, some "203.0.113.1", none, none, none, none, none⟩] ∧
    (addRecordHandler
      ⟨some "example.com",
       some ⟨some "A", some "www", none, some "203.0.113.1", none, none, none, none, none⟩⟩
      ⟨true, true, none, none, none⟩).setZoneCalls = 1 :=
  c10_missing_records_replace_zone
    ⟨some "example.com",
     some ⟨some "A", some "www", none, some "203.0.113.1", none, none, none, none, none⟩⟩
    ⟨some "A", some "www", none, some "203.0.113.1", none, none, none, none, none⟩
    ⟨true, true, none, none, none⟩
    rfl rfl rfl (Or.inl rfl) rfl rfl rfl rfl

/-- C3 evaluation: with two existing A records for subdomain www and no
address given to disambiguate, the update-record handler silently replaces
both matches with the new record and still calls `setDnsZone` once, and the
delete-record handler silently filters both matches out and still calls
`setDnsZone` once; neither returns the required multiple-matches error with
zero update calls. -/
theorem c3_ambiguous_match_not_rejected :
    updateRecordHandler
      ⟨some "example.com",
       some ⟨some "A", some "www", none, some "3.3.3.3", none, none, none, none, none⟩⟩
      ⟨true, true,
       some [⟨"A", "www", "1.1.1.1", 3600, none, none, none⟩,
             ⟨"A", "www", "2.2.2.2", 3600, none, none, none⟩], none, none⟩ =
      .callSetZone [⟨"A", "www", "3.3.3.3", 3600, none, none, none⟩,
                    ⟨"A", "www", "3.3.3.3", 3600, none, none, none⟩] ∧
    (updateRecordHandler
      ⟨some "example.com",
       some ⟨some "A", some "www", none, some "3.3.3.3", none, none, none, none, none⟩⟩
      ⟨true, true,
       some [⟨"A", "www", "1.1.1.1", 3600, none, none, none⟩,
             ⟨"A", "www", "2.2.2.2", 3600, none, none, none⟩], none, none⟩).setZoneCalls
      = 1 ∧
    deleteRecordHandler
      ⟨some "example.com",
       some ⟨some "A", none, some "www", none, none, none, none, none, none⟩⟩
      ⟨true, true,
       some [⟨"A", "www", "1.1.1.1", 3600, none, none, none⟩,
             ⟨"A", "www", "2.2.2.2", 3600, none, none, none⟩], none, none⟩ =
      .callSetZone [] ∧
    (deleteRecordHandler
      ⟨some "example.com",
       some ⟨some "A", none, some "www", none, none, none, none, none, none⟩⟩
      ⟨true, true,
       some [⟨"A", "www", "1.1.1.1", 3600, none, none, none⟩,
             ⟨"A", "www", "2.2.2.2", 3600, none, none, none⟩], none, none⟩).setZoneCalls
      = 1 := by
  refine ⟨by decide, by decide, by decide, by decide⟩

/-- C5: the parsed response is successful exactly when the extracted
response code is 200 or 210, and a lookup whose vendor XML carries
response code 210 yields the endpoint reply with success true and
available true, whatever the parsed data status is. -/
theorem c5_success_iff_code_200_or_210 (xml : String) (dataStatus : Option String) :
    ((parseXmlResponse (some xml)).success = true ↔
      (extractXmlValue xml "response_code" = some "200" ∨
       extractXmlValue xml "response_code" = some "210")) ∧
    (extractXmlValue xml "response_code" = some "210" →
      lookupReply (parseXmlResponse (some xml)) dataStatus =
        ⟨true, true⟩) := by
  constructor
  · simp [parseXmlResponse]
  · intro h
    simp [lookupReply, lookupIsAvailable, parseXmlResponse, h]

/-- C5 witness: a concrete vendor XML fragment with response code 210 is
parsed as successful and the lookup endpoint reports the domain
available. -/
theorem c5_success_iff_code_200_or_210_witness :
    extractXmlValue
      "<item key=\"response_code\">210</item><item key=\"response_text\">Domain available</item>"
      "response_code" = some "210" ∧
    lookupReply
      (parseXmlResponse
        (some "<item key=\"response_code\">210</item><item key=\"response_text\">Domain available</item>"))
      none = ⟨true, true⟩ :=
  ⟨by decide,
   (c5_success_iff_code_200_or_210
      "<item key=\"response_code\">210</item><item key=\"response_text\">Domain available</item>"
      none).2 (by decide)⟩

theorem parseRecordNode_recordAssoc (t : String) (r : DnsRecord) (k : String) :
    parseRecordNode t (ZoneXml.item k [recordAssoc t r]) = some (wireView t r) := by
  by_cases h1 : t = "A"
  · subst h1; rfl
  by_cases h2 : t = "AAAA"
  · subst h2; rfl
  by_cases h3 : t = "CNAME"
  · subst h3; rfl
  by_cases h4 : t = "MX"
  · subst h4; rfl
  by_cases h5 : t = "TXT"
  · subst h5; rfl
  by_cases h6 : t = "SRV"
  · subst h6; rfl
  simp [recordAssoc, parseRecordNode, wireView, findItemText,
        h1, h2, h3, h4, h5, h6]

theorem filterMap_parse_enumFrom (t : String) (rs : List DnsRecord) (i : Nat) :
    ((List.enumFrom i rs).map
        (fun p => ZoneXml.item (toString p.1) [recordAssoc t p.2])).filterMap
      (parseRecordNode t) = rs.map (wireView t) := by
  induction rs generalizing i with
  | nil => rfl
  | cons hd tl ih =>
    simp [List.enumFrom, List.filterMap_cons, parseRecordNode_recordAssoc, ih]

theorem parseZoneRecords_build_aux (records : List DnsRecord)
    (l : List String) :
    parseZoneRecords
      (l.map (fun t =>
        ZoneXml.item t
          [ZoneXml.arr (((recordsOfType t records).enum).map
            (fun p => ZoneXml.item (toString p.1) [recordAssoc t p.2]))])) =
      l.flatMap (fun t => (recordsOfType t records).map (wireView t)) := by
  induction l with
  | nil => rfl
  | cons hd tl ih =>
    simp only [List.map_cons, parseZoneRecords, List.flatMap_cons] at *
    rw [ih]
    congr 1
    simpa [List.enum] using filterMap_parse_enumFrom hd (recordsOfType hd records) 0

/-- C8: for every valid record list, building the `set_dns_zone` record
subtree and parsing it back recovers exactly the input records grouped by
type and re-flattened; and on valid records the type-specific fields are
preserved: the wire priority of an MX or SRV record is the decimal
rendering of its priority, and the wire weight and port of an SRV record
are the decimal renderings of its weight and port. -/
theorem c8_set_zone_roundtrip (records : List DnsRecord)
    (hval : ∀ r ∈ records, validRecord r = true) :
    parseZoneRecords (buildZoneRecordsXml records) = zoneWireFlatten records ∧
    ∀ r ∈ records,
      ((jsToUpper r.type = "MX" ∨ jsToUpper r.type = "SRV") →
        (wireView (jsToUpper r.type) r).priority = r.priority.map toString) ∧
      (jsToUpper r.type = "SRV" →
        (wireView (jsToUpper r.type) r).weight = r.weight.map toString ∧
        (wireView (jsToUpper r.type) r).port = r.port.map toString) := by
  constructor
  · exact parseZoneRecords_build_aux records (typeOrder records)
  · intro r hr
    have hv := hval r hr
    simp only [validRecord, Bool.and_eq_true, Bool.or_eq_true,
      decide_eq_true_eq] at hv
    constructor
    · intro ht
      have hp : jsTruthyN r.priority = true := by
        rcases ht with ht | ht
        · rcases hv.1 with h | h
          · exact absurd ht h
          · exact h
        · rcases hv.2 with h | h
          · exact absurd ht h
          · exact h.1.1
      rcases hrp : r.priority with _ | p
      · rw [hrp] at hp; simp [jsTruthyN] at hp
      · have hp0 : p ≠ 0 := by
          rw [hrp] at hp; simpa [jsTruthyN] using hp
        rcases ht with ht | ht <;>
          simp [wireView, ht, jsOrN, hrp, hp0]
    · intro ht
      have hsrv : jsTruthyN r.priority = true ∧ jsTruthyN r.weight = true ∧
          jsTruthyN r.port = true := by
        rcases hv.2 with h | h
        · exact absurd ht h
        · exact ⟨h.1.1, h.1.2, h.2⟩
      rcases hrw : r.weight with _ | w
      · rw [hrw] at hsrv; simp [jsTruthyN] at hsrv
      rcases hrq : r.port with _ | q
      · rw [hrq] at hsrv; simp [jsTruthyN] at hsrv
      have hw0 : w ≠ 0 := by
        have := hsrv.2.1; rw [hrw] at this; simpa [jsTruthyN] using this
      have hq0 : q ≠ 0 := by
        have := hsrv.2.2; rw [hrq] at this; simpa [jsTruthyN] using this
      simp [wireView, ht, jsOrN, hrw, hrq, hw0, hq0]

/-- C8 witness: a concrete valid list with an A, an MX and an SRV record
round-trips through the built subtree. -/
theorem c8_set_zone_roundtrip_witness :
    (∀ r ∈ [(⟨"A", "www", "203.0.113.1", 3600, none, none, none⟩ : DnsRecord),
            ⟨"MX", "", "mail.example.com", 3600, some 10, none, none⟩,
            ⟨"SRV", "_sip._tcp", "sip.example.com", 3600, some 5, some 1, some 443⟩],
      validRecord r = true) ∧
    parseZoneRecords
      (buildZoneRecordsXml
        [⟨"A", "www", "203.0.113.1", 3600, none, none, none⟩,
         ⟨"MX", "", "mail.example.com", 3600, some 10, none, none⟩,
         ⟨"SRV", "_sip._tcp", "sip.example.com", 3600, some 5, some 1, some 443⟩]) =
      zoneWireFlatten
        [⟨"A", "www", "203.0.113.1", 3600, none, none, none⟩,
         ⟨"MX", "", "mail.example.com", 3600, some 10, none, none⟩,
         ⟨"SRV", "_sip._tcp", "sip.example.com", 3600, some 5, some 1, some 443⟩] :=
  ⟨by decide,
   (c8_set_zone_roundtrip
      [⟨"A", "www", "203.0.113.1", 3600, none, none, none⟩,
       ⟨"MX", "", "mail.example.com", 3600, some 10, none, none⟩,
       ⟨"SRV", "_sip._tcp", "sip.example.com", 3600, some 5, some 1, some 443⟩]
      (by decide)).1⟩
